import Mathlib

/-!
Verification of the stagecoach-tracker bus-notification program
(`src/main.rs`) against its natural-language specification.

Modelling conventions:
* Rust `f64` values are modelled as real numbers (`ℝ`), the standard
  exact idealization; string-to-number parsing produces exact rationals
  which are cast into `ℝ` where the program stores them in an `f64`.
* `serde_json::Value` is modelled by the inductive type `Json` below.
* The network side effects of a poll cycle are modelled by an oracle
  `sendOk : Nat → Bool` giving the outcome of the k-th notification
  send, and the cycle is modelled as the pure function `check_buses`
  returning the list of messages whose sending was attempted, in order,
  together with the `Ok`/`Err` outcome of the cycle.
-/

open Real

namespace Stagecoach

/-- The `BusStop` struct of `main.rs`: a named waypoint. -/
structure BusStop where
  name : String
  lat : ℝ
  lng : ℝ

/-- Modelled from the Rust standard library: `f64::atan2(y, x)`, the
two-argument arctangent, on the ideal reals (signed zeros and NaN do not
exist in this idealization). -/
noncomputable def atan2 (y x : ℝ) : ℝ :=
  if 0 < x then Real.arctan (y / x)
  else if x < 0 then
    (if 0 ≤ y then Real.arctan (y / x) + Real.pi else Real.arctan (y / x) - Real.pi)
  else
    (if 0 < y then Real.pi / 2 else if y < 0 then -(Real.pi / 2) else 0)

/-- `EARTH_RADIUS` of `haversine_distance` in `main.rs`: 6371e3 meters. -/
def EARTH_RADIUS : ℝ := 6371e3

/-- `haversine_distance` of `main.rs`: great-circle distance in meters
between two latitude/longitude points given in degrees. -/
noncomputable def haversine_distance (lat1 lon1 lat2 lon2 : ℝ) : ℝ :=
  let lat1_rad := lat1 * Real.pi / 180
  let lat2_rad := lat2 * Real.pi / 180
  let delta_lat := (lat2 - lat1) * Real.pi / 180
  let delta_lon := (lon2 - lon1) * Real.pi / 180
  let a := Real.sin (delta_lat / 2) ^ 2
    + Real.cos lat1_rad * Real.cos lat2_rad * Real.sin (delta_lon / 2) ^ 2
  let c := 2 * atan2 (Real.sqrt a) (Real.sqrt (1 - a))
  EARTH_RADIUS * c

/-- `MAX_DISTANCE_METERS` of `find_nearest_stop` in `main.rs`. -/
def MAX_DISTANCE_METERS : ℝ := 200.0

/-- `find_nearest_stop` of `main.rs`: scan the stops in list order and
return the name of the first stop whose haversine distance from the bus
is within `MAX_DISTANCE_METERS`; `none` if there is no such stop. -/
noncomputable def find_nearest_stop (bus_lat bus_lng : ℝ) : List BusStop → Option String
  | [] => none
  | stop :: rest =>
    if haversine_distance bus_lat bus_lng stop.lat stop.lng ≤ MAX_DISTANCE_METERS then
      some stop.name
    else
      find_nearest_stop bus_lat bus_lng rest

/-- The haversine algorithm exactly as the specification words it:
degrees-to-radians conversion, `a = sin²(Δlat/2) +
cos(lat1)·cos(lat2)·sin²(Δlon/2)`, `c = 2·atan2(√a, √(1−a))`, result
`EARTH_RADIUS_METERS · c` with the Earth radius 6371e3 meters. -/
noncomputable def haversine_spec_formula (lat1 lon1 lat2 lon2 : ℝ) : ℝ :=
  6371e3 * (2 * atan2
    (Real.sqrt (Real.sin ((lat2 - lat1) * Real.pi / 180 / 2) ^ 2
      + Real.cos (lat1 * Real.pi / 180) * Real.cos (lat2 * Real.pi / 180)
        * Real.sin ((lon2 - lon1) * Real.pi / 180 / 2) ^ 2))
    (Real.sqrt (1 - (Real.sin ((lat2 - lat1) * Real.pi / 180 / 2) ^ 2
      + Real.cos (lat1 * Real.pi / 180) * Real.cos (lat2 * Real.pi / 180)
        * Real.sin ((lon2 - lon1) * Real.pi / 180 / 2) ^ 2))))

/-! The waypoint loader (`load_bus_stops` in `main.rs`). -/

/-- Modelled from the Rust standard library: `str::split(sep)` on a
single-character separator, as a structural recursion over the
character list. -/
def splitCharAux (sep : Char) : List Char → List Char → List String
  | [], acc => [⟨acc.reverse⟩]
  | c :: cs, acc =>
    if c = sep then ⟨acc.reverse⟩ :: splitCharAux sep cs []
    else splitCharAux sep cs (c :: acc)

/-- Split a string on a separator character; an empty input yields one
empty piece, as in Rust. -/
def splitChar (sep : Char) (s : String) : List String :=
  splitCharAux sep s.data []

/-- Modelled from the Rust standard library: `str::trim()`, removing
leading and trailing whitespace. -/
def trimChars (s : String) : String :=
  ⟨((s.data.dropWhile Char.isWhitespace).reverse.dropWhile Char.isWhitespace).reverse⟩

/-- Numeric value of a list of decimal digit characters. -/
def digitsVal (cs : List Char) : ℕ :=
  cs.foldl (fun acc c => 10 * acc + (c.toNat - Char.toNat '0')) 0

/-- The syntactic parts of a parsed float literal: mantissa sign,
integer digits, fraction digits, exponent sign and exponent digits (no
exponent is recorded as an empty exponent-digit list). -/
structure FloatParts where
  sign : Bool
  ip : List Char
  fp : List Char
  expSign : Bool
  expDigits : List Char
deriving DecidableEq

/-- Exact rational value denoted by parsed float parts. -/
def floatPartsVal (p : FloatParts) : ℚ :=
  let mant : ℚ := (digitsVal p.ip : ℚ) + (digitsVal p.fp : ℚ) / 10 ^ p.fp.length
  let signed : ℚ := if p.sign then mant else -mant
  if p.expSign then signed * 10 ^ digitsVal p.expDigits
  else signed / 10 ^ digitsVal p.expDigits

/-- Exponent of a float literal: `e`/`E`, an optional sign and at least
one digit, consuming the entire remaining input. -/
def parseExpTail (sign : Bool) (ip fp t : List Char) : Option FloatParts :=
  let signAndRest : Bool × List Char :=
    match t with
    | '+' :: r => (true, r)
    | '-' :: r => (false, r)
    | r => (true, r)
  let ed := signAndRest.2.takeWhile Char.isDigit
  let t2 := signAndRest.2.dropWhile Char.isDigit
  if ed.isEmpty || !t2.isEmpty then none
  else some ⟨sign, ip, fp, signAndRest.1, ed⟩

/-- After the mantissa: end of input, or an exponent marker. -/
def parseExpPart (sign : Bool) (ip fp : List Char) : List Char → Option FloatParts
  | [] => some ⟨sign, ip, fp, true, []⟩
  | 'e' :: t => parseExpTail sign ip fp t
  | 'E' :: t => parseExpTail sign ip fp t
  | _ => none

/-- Sign, integer digits and optional fraction of a float literal (at
least one digit overall). -/
def parseFloatParts (cs : List Char) : Option FloatParts :=
  let signAndRest : Bool × List Char :=
    match cs with
    | '+' :: t => (true, t)
    | '-' :: t => (false, t)
    | t => (true, t)
  let ip := signAndRest.2.takeWhile Char.isDigit
  let cs2 := signAndRest.2.dropWhile Char.isDigit
  match cs2 with
  | '.' :: t =>
    let fp := t.takeWhile Char.isDigit
    let cs3 := t.dropWhile Char.isDigit
    if ip.isEmpty && fp.isEmpty then none
    else parseExpPart signAndRest.1 ip fp cs3
  | rest =>
    if ip.isEmpty then none
    else parseExpPart signAndRest.1 ip [] rest

/-- Modelled from the Rust standard library: `str::parse::<f64>()`,
restricted to the finite decimal literals this program's data uses: an
optional sign, digits with an optional decimal point (at least one digit
overall), and an optional exponent. The values are kept exact as
rationals; the special forms `inf`/`infinity`/`NaN`, which denote
non-finite floats, are outside this idealization and are treated as
unparsed. -/
def parseF64 (s : String) : Option ℚ :=
  (parseFloatParts s.data).map floatPartsVal

/-- The record-parsing closure inside `load_bus_stops` in `main.rs`:
split a record on commas, take the first three parts as name, latitude
and longitude (each trimmed; any further parts are never requested from
the iterator), and keep the record only when both coordinates parse. -/
noncomputable def parse_bus_stop_record (s : String) : Option BusStop :=
  match splitChar ',' s with
  | name :: lat :: lng :: _ =>
    match parseF64 (trimChars lat), parseF64 (trimChars lng) with
    | some la, some ln => some ⟨trimChars name, (la : ℝ), (ln : ℝ)⟩
    | _, _ => none
  | _ => none

/-- `load_bus_stops` of `main.rs`: the `BUS_STOPS` environment variable
(modelled as `Option String`, `none` when absent) is split on `;` and
each record parsed, skipping invalid ones; an absent variable yields the
empty list. -/
noncomputable def load_bus_stops : Option String → List BusStop
  | none => []
  | some stops_str => (splitChar ';' stops_str).filterMap parse_bus_stop_record

/-! The poll cycle (`check_buses` in `main.rs`). -/

/-- Model of `serde_json::Value`. -/
inductive Json where
  | null
  | bool (b : Bool)
  | num (q : ℚ)
  | str (s : String)
  | arr (items : List Json)
  | obj (fields : List (String × Json))

/-- Modelled from `serde_json`: `value[key]` — the field of an object,
`Null` when the key is absent or the value is not an object. -/
def jIndex (v : Json) (key : String) : Json :=
  match v with
  | Json.obj fields => ((fields.find? (fun kv => kv.1 == key)).map Prod.snd).getD Json.null
  | _ => Json.null

/-- Modelled from `serde_json`: `Value::as_str`. -/
def jAsStr : Json → Option String
  | Json.str s => some s
  | _ => none

/-- Modelled from `serde_json`: `Value::as_array`. -/
def jAsArray : Json → Option (List Json)
  | Json.arr items => some items
  | _ => none

/-- The coordinate extraction in `check_buses`:
`service[key].as_str().and_then(|s| s.parse::<f64>().ok())`. -/
def serviceCoord (service : Json) (key : String) : Option ℚ :=
  (jAsStr (jIndex service key)).bind parseF64

/-- The notification text built in `check_buses`:
`format!("Bus ({}) {} is near **{}**!", ...)`. -/
def busMessage (service_number service_description nearby_stop : String) : String :=
  "Bus (" ++ service_number ++ ") " ++ service_description
    ++ " is near **" ++ nearby_stop ++ "**!"

/-- The `for service in services` loop of `check_buses` in `main.rs`.
`sendOk k` is the outcome of the k-th notification send of the cycle
(`k` counts attempted sends so far). The result is the list of messages
whose sending was attempted, in order, and `true` for `Ok(())` /
`false` for an `Err` propagated by the `?` on `send_telegram_message`:
a failed send aborts the remainder of the loop. Entries without
string-encoded parseable coordinates are skipped; a missing or
non-string `serviceNumber` / `serviceDescription` falls back to
`"Unknown"` / `"No description"` via `unwrap_or`. -/
noncomputable def process_services (bus_stops : List BusStop) (sendOk : ℕ → Bool) :
    ℕ → List Json → List String × Bool
  | _, [] => ([], true)
  | k, service :: rest =>
    match serviceCoord service "latitude", serviceCoord service "longitude" with
    | some bus_lat, some bus_lng =>
      let service_number := (jAsStr (jIndex service "serviceNumber")).getD "Unknown"
      let service_description :=
        (jAsStr (jIndex service "serviceDescription")).getD "No description"
      match find_nearest_stop (bus_lat : ℝ) (bus_lng : ℝ) bus_stops with
      | some nearby_stop =>
        let message := busMessage service_number service_description nearby_stop
        if sendOk k then
          let result := process_services bus_stops sendOk (k + 1) rest
          (message :: result.1, result.2)
        else
          ([message], false)
      | none => process_services bus_stops sendOk k rest
    | _, _ => process_services bus_stops sendOk k rest

/-- `check_buses` of `main.rs`, after the HTTP GET: traverse the
response's `services` array, match each parseable vehicle against the
stops and send a notification per match; a response without a `services`
array means no vehicles and the cycle succeeds with no sends. -/
noncomputable def check_buses (bus_stops : List BusStop) (sendOk : ℕ → Bool)
    (response : Json) : List String × Bool :=
  match jAsArray (jIndex response "services") with
  | some services => process_services bus_stops sendOk 0 services
  | none => ([], true)

/-- A sample vehicle entry at the origin, with only coordinates and no
service fields. -/
def sampleService : Json :=
  Json.obj [("latitude", Json.str "0"), ("longitude", Json.str "0")]

/-- A sample vehicle entry at the origin with a `serviceNumber` but no
`serviceDescription`. -/
def sampleServiceNum : Json :=
  Json.obj [("latitude", Json.str "0"), ("longitude", Json.str "0"),
    ("serviceNumber", Json.str "42")]

/-- A sample vehicle entry at the origin with a `serviceDescription` but
no `serviceNumber`. -/
def sampleServiceDesc : Json :=
  Json.obj [("latitude", Json.str "0"), ("longitude", Json.str "0"),
    ("serviceDescription", Json.str "City Express")]

/-- A sample waypoint at the origin. -/
def sampleStop : BusStop := ⟨"W", 0, 0⟩

/-! Basic facts about the distance function. -/

lemma atan2_zero_one : atan2 0 1 = 0 := by
  simp [atan2, Real.arctan_zero]

lemma haversine_self (lat lng : ℝ) : haversine_distance lat lng lat lng = 0 := by
  simp [haversine_distance, atan2_zero_one]

lemma haversine_self_le_max (lat lng : ℝ) :
    haversine_distance lat lng lat lng ≤ MAX_DISTANCE_METERS := by
  rw [haversine_self]
  norm_num [MAX_DISTANCE_METERS]

/-! Characterization of `find_nearest_stop` as a first-match scan. -/

lemma find_nearest_stop_eq_none_iff (bus_lat bus_lng : ℝ) (stops : List BusStop) :
    find_nearest_stop bus_lat bus_lng stops = none ↔
      ∀ s ∈ stops, ¬ haversine_distance bus_lat bus_lng s.lat s.lng ≤ MAX_DISTANCE_METERS := by
  induction stops with
  | nil => simp [find_nearest_stop]
  | cons stop rest ih =>
    by_cases h : haversine_distance bus_lat bus_lng stop.lat stop.lng ≤ MAX_DISTANCE_METERS
    · simp [find_nearest_stop, h]
    · simp only [find_nearest_stop, if_neg h]
      rw [ih]
      constructor
      · intro hall s hs
        rcases List.mem_cons.mp hs with rfl | hs'
        · exact h
        · exact hall s hs'
      · intro hall s hs
        exact hall s (by simp [hs])

lemma find_nearest_stop_eq_some_iff (bus_lat bus_lng : ℝ) (stops : List BusStop)
    (nm : String) :
    find_nearest_stop bus_lat bus_lng stops = some nm ↔
      ∃ pre s post, stops = pre ++ s :: post ∧ s.name = nm ∧
        haversine_distance bus_lat bus_lng s.lat s.lng ≤ MAX_DISTANCE_METERS ∧
        ∀ t ∈ pre, ¬ haversine_distance bus_lat bus_lng t.lat t.lng ≤ MAX_DISTANCE_METERS := by
  induction stops with
  | nil =>
    simp only [find_nearest_stop]
    constructor
    · intro h; exact absurd h (by simp)
    · rintro ⟨pre, s, post, hdec, -⟩
      exact absurd hdec (by simp)
  | cons stop rest ih =>
    by_cases h : haversine_distance bus_lat bus_lng stop.lat stop.lng ≤ MAX_DISTANCE_METERS
    · simp only [find_nearest_stop, if_pos h]
      constructor
      · intro hs
        exact ⟨[], stop, rest, by simp, by simpa using hs, h, by simp⟩
      · rintro ⟨pre, s, post, hdec, hname, hle, hpre⟩
        cases pre with
        | nil =>
          simp only [List.nil_append, List.cons.injEq] at hdec
          rw [← hname, hdec.1]
        | cons p pre' =>
          simp only [List.cons_append, List.cons.injEq] at hdec
          exact absurd (hdec.1 ▸ h) (hpre p (by simp))
    · simp only [find_nearest_stop, if_neg h]
      rw [ih]
      constructor
      · rintro ⟨pre, s, post, hdec, hname, hle, hpre⟩
        refine ⟨stop :: pre, s, post, by simp [hdec], hname, hle, ?_⟩
        intro t ht
        rcases List.mem_cons.mp ht with rfl | ht'
        · exact h
        · exact hpre t ht'
      · rintro ⟨pre, s, post, hdec, hname, hle, hpre⟩
        cases pre with
        | nil =>
          simp only [List.nil_append, List.cons.injEq] at hdec
          exact absurd (hdec.1 ▸ hle) h
        | cons p pre' =>
          simp only [List.cons_append, List.cons.injEq] at hdec
          exact ⟨pre', s, post, hdec.2, hname, hle, fun t ht => hpre t (by simp [ht])⟩

/-- C1: for every waypoint list and vehicle coordinates,
`find_nearest_stop` returns `none` exactly when no waypoint's haversine
distance from the vehicle is within the 200-meter threshold, and returns
`some nm` exactly when `nm` names the first waypoint in list order within
the threshold (every earlier waypoint being out of range) — so the result
is the first in-range waypoint, not the globally nearest one. -/
theorem find_nearest_stop_first_match (bus_lat bus_lng : ℝ) (stops : List BusStop) :
    (find_nearest_stop bus_lat bus_lng stops = none ↔
      ∀ s ∈ stops, ¬ haversine_distance bus_lat bus_lng s.lat s.lng ≤ MAX_DISTANCE_METERS)
    ∧ ∀ nm : String, find_nearest_stop bus_lat bus_lng stops = some nm ↔
        ∃ pre s post, stops = pre ++ s :: post ∧ s.name = nm ∧
          haversine_distance bus_lat bus_lng s.lat s.lng ≤ MAX_DISTANCE_METERS ∧
          ∀ t ∈ pre, ¬ haversine_distance bus_lat bus_lng t.lat t.lng ≤ MAX_DISTANCE_METERS :=
  ⟨find_nearest_stop_eq_none_iff bus_lat bus_lng stops,
   fun nm => find_nearest_stop_eq_some_iff bus_lat bus_lng stops nm⟩

/-! A concrete pair of points at haversine distance exactly 200 meters:
latitude 0 for both, longitude difference `360 / (63710 * π)` degrees,
i.e. a central angle of exactly `2 / 63710` radians. -/

lemma haversine_eq_200 :
    haversine_distance 0 0 0 (360 / (63710 * Real.pi)) = 200 := by
  have hπ3 := Real.pi_gt_three
  have hθπ2 : (1 : ℝ) / 63710 < Real.pi / 2 := by nlinarith
  have hθneg : -(Real.pi / 2) < (1 : ℝ) / 63710 := by nlinarith
  have hsin : 0 ≤ Real.sin (1 / 63710) :=
    Real.sin_nonneg_of_nonneg_of_le_pi (by norm_num) (by nlinarith)
  have hcos : 0 < Real.cos (1 / 63710) := Real.cos_pos_of_mem_Ioo ⟨hθneg, hθπ2⟩
  have hδlon : ((360 / (63710 * Real.pi) : ℝ) - 0) * Real.pi / 180 / 2 = 1 / 63710 := by
    have hπ : Real.pi ≠ 0 := Real.pi_ne_zero
    field_simp
    ring
  simp only [haversine_distance]
  rw [hδlon]
  have hδlat : ((0 : ℝ) - 0) * Real.pi / 180 / 2 = 0 := by ring
  rw [hδlat]
  have hlat : (0 : ℝ) * Real.pi / 180 = 0 := by ring
  rw [hlat]
  simp only [Real.sin_zero, Real.cos_zero, one_mul, ne_eq]
  have ha : (0 : ℝ) ^ 2 + Real.sin (1 / 63710) ^ 2 = Real.sin (1 / 63710) ^ 2 := by
    ring
  rw [ha]
  have h1a : (1 : ℝ) - Real.sin (1 / 63710) ^ 2 = Real.cos (1 / 63710) ^ 2 := by
    nlinarith [Real.sin_sq_add_cos_sq ((1 : ℝ) / 63710)]
  rw [h1a, Real.sqrt_sq hsin, Real.sqrt_sq hcos.le]
  rw [atan2, if_pos hcos, ← Real.tan_eq_sin_div_cos,
    Real.arctan_tan hθneg hθπ2]
  norm_num [EARTH_RADIUS]

/-- C3: the matcher's threshold is inclusive: a distance of exactly 200
meters to a waypoint is a match, while any strictly greater distance is
not. -/
theorem threshold_boundary (bus_lat bus_lng : ℝ) (stop : BusStop) :
    (haversine_distance bus_lat bus_lng stop.lat stop.lng = 200 →
      find_nearest_stop bus_lat bus_lng [stop] = some stop.name)
    ∧ (200 < haversine_distance bus_lat bus_lng stop.lat stop.lng →
      find_nearest_stop bus_lat bus_lng [stop] = none) := by
  have hmax : MAX_DISTANCE_METERS = (200 : ℝ) := by norm_num [MAX_DISTANCE_METERS]
  constructor
  · intro h
    simp [find_nearest_stop, hmax, h]
  · intro h
    simp [find_nearest_stop, hmax, not_le.mpr h]

/-- Witness for `threshold_boundary`: a concrete waypoint at distance
exactly 200 meters from the vehicle is matched. -/
theorem threshold_boundary_witness :
    haversine_distance 0 0 0 (360 / (63710 * Real.pi)) = 200 ∧
    find_nearest_stop 0 0 [(⟨"S", 0, 360 / (63710 * Real.pi)⟩ : BusStop)] = some "S" :=
  ⟨haversine_eq_200,
    (threshold_boundary 0 0 ⟨"S", 0, 360 / (63710 * Real.pi)⟩).1 haversine_eq_200⟩

/-- C4: the code's distance function computes exactly the haversine
algorithm stated in the specification. -/
theorem haversine_matches_spec (lat1 lon1 lat2 lon2 : ℝ) :
    haversine_distance lat1 lon1 lat2 lon2 = haversine_spec_formula lat1 lon1 lat2 lon2 :=
  rfl

/-- C9: the distance function is symmetric in its two points. -/
theorem haversine_symm (lat1 lon1 lat2 lon2 : ℝ) :
    haversine_distance lat1 lon1 lat2 lon2 = haversine_distance lat2 lon2 lat1 lon1 := by
  have hsin : ∀ u v : ℝ,
      Real.sin ((u - v) * Real.pi / 180 / 2) ^ 2
        = Real.sin ((v - u) * Real.pi / 180 / 2) ^ 2 := by
    intro u v
    have h : (u - v) * Real.pi / 180 / 2 = -((v - u) * Real.pi / 180 / 2) := by ring
    rw [h, Real.sin_neg]
    ring
  simp only [haversine_distance]
  rw [hsin lat2 lat1, hsin lon2 lon1,
    mul_comm (Real.cos (lat1 * Real.pi / 180)) (Real.cos (lat2 * Real.pi / 180))]

/-- C6 (counterexample to the claim as stated): with two identically
located waypoints `A` then `B`, the vehicle standing exactly at `B`'s
coordinates is matched to `A` (the first in-range waypoint in list
order), not to `B`. -/
theorem matcher_at_waypoint_cex :
    ((⟨"B", 0, 0⟩ : BusStop) ∈ [(⟨"A", 0, 0⟩ : BusStop), ⟨"B", 0, 0⟩])
    ∧ find_nearest_stop 0 0 [(⟨"A", 0, 0⟩ : BusStop), ⟨"B", 0, 0⟩] = some "A"
    ∧ some "A" ≠ some ((⟨"B", 0, 0⟩ : BusStop)).name := by
  refine ⟨by simp, ?_, by simp⟩
  norm_num [find_nearest_stop, haversine_self, MAX_DISTANCE_METERS]

/-- C6 (amended): a vehicle standing exactly at waypoint `W`'s
coordinates always produces a match when `W` is in the list, and the
match is `W` itself whenever every waypoint listed before `W` is out of
range (in particular when `W` comes first). -/
theorem matcher_at_waypoint (stops : List BusStop) (W : BusStop) :
    (W ∈ stops → (find_nearest_stop W.lat W.lng stops).isSome)
    ∧ ∀ pre post, stops = pre ++ W :: post →
        (∀ s ∈ pre, ¬ haversine_distance W.lat W.lng s.lat s.lng ≤ MAX_DISTANCE_METERS) →
        find_nearest_stop W.lat W.lng stops = some W.name := by
  constructor
  · intro hmem
    cases hfind : find_nearest_stop W.lat W.lng stops with
    | none =>
      exact absurd (haversine_self_le_max W.lat W.lng)
        ((find_nearest_stop_eq_none_iff W.lat W.lng stops).mp hfind W hmem)
    | some nm => rfl
  · intro pre post hdec hpre
    rw [hdec, find_nearest_stop_eq_some_iff]
    exact ⟨pre, W, post, rfl, rfl, haversine_self_le_max W.lat W.lng, hpre⟩

/-- Witness for `matcher_at_waypoint`: a vehicle at the single waypoint's
own coordinates is matched to it. -/
theorem matcher_at_waypoint_witness :
    find_nearest_stop 0 0 [(⟨"W", 0, 0⟩ : BusStop)] = some "W" :=
  (matcher_at_waypoint [⟨"W", 0, 0⟩] ⟨"W", 0, 0⟩).2 [] [] rfl (by simp)

/-! Concrete evaluations of the float parser. -/

lemma parseF64_one : parseF64 "1" = some 1 := by
  have h : parseFloatParts "1".data = some ⟨true, ['1'], [], true, []⟩ := by decide
  have d1 : digitsVal ['1'] = 1 := by decide
  have d0 : digitsVal ([] : List Char) = 0 := by decide
  simp [parseF64, h, floatPartsVal, d1, d0]

lemma parseF64_two : parseF64 "2" = some 2 := by
  have h : parseFloatParts "2".data = some ⟨true, ['2'], [], true, []⟩ := by decide
  have d2 : digitsVal ['2'] = 2 := by decide
  have d0 : digitsVal ([] : List Char) = 0 := by decide
  simp [parseF64, h, floatPartsVal, d2, d0]

lemma parseF64_515 : parseF64 "51.5" = some (103 / 2) := by
  have h : parseFloatParts "51.5".data = some ⟨true, ['5', '1'], ['5'], true, []⟩ := by decide
  have d51 : digitsVal ['5', '1'] = 51 := by decide
  have d5 : digitsVal ['5'] = 5 := by decide
  have d0 : digitsVal ([] : List Char) = 0 := by decide
  simp [parseF64, h, floatPartsVal, d51, d5, d0]
  norm_num

lemma parseF64_neg01 : parseF64 "-0.1" = some (-1 / 10) := by
  have h : parseFloatParts "-0.1".data = some ⟨false, ['0'], ['1'], true, []⟩ := by decide
  have d0 : digitsVal ['0'] = 0 := by decide
  have d1 : digitsVal ['1'] = 1 := by decide
  have de : digitsVal ([] : List Char) = 0 := by decide
  simp [parseF64, h, floatPartsVal, d0, d1, de]
  norm_num

lemma parseF64_520 : parseF64 "52.0" = some 52 := by
  have h : parseFloatParts "52.0".data = some ⟨true, ['5', '2'], ['0'], true, []⟩ := by decide
  have d52 : digitsVal ['5', '2'] = 52 := by decide
  have d0 : digitsVal ['0'] = 0 := by decide
  have de : digitsVal ([] : List Char) = 0 := by decide
  simp [parseF64, h, floatPartsVal, d52, d0, de]

lemma parseF64_00 : parseF64 "0.0" = some 0 := by
  have h : parseFloatParts "0.0".data = some ⟨true, ['0'], ['0'], true, []⟩ := by decide
  have d0 : digitsVal ['0'] = 0 := by decide
  have de : digitsVal ([] : List Char) = 0 := by decide
  simp [parseF64, h, floatPartsVal, d0, de]

lemma parseF64_zero : parseF64 "0" = some 0 := by
  have h : parseFloatParts "0".data = some ⟨true, ['0'], [], true, []⟩ := by decide
  have d0 : digitsVal ['0'] = 0 := by decide
  have de : digitsVal ([] : List Char) = 0 := by decide
  simp [parseF64, h, floatPartsVal, d0, de]

/-- C5 (counterexample to the claim as stated): the record `"a,1,2,3"`
has four comma-separated fields — a wrong field count — yet the loader
keeps it as the waypoint `("a", 1, 2)` instead of skipping it: only the
first three fields are ever requested from the split iterator. -/
theorem loader_field_count_cex :
    splitChar ',' "a,1,2,3" = ["a", "1", "2", "3"]
    ∧ load_bus_stops (some "a,1,2,3") = [(⟨"a", 1, 2⟩ : BusStop)] := by
  refine ⟨by decide, ?_⟩
  have hs : splitChar ';' "a,1,2,3" = ["a,1,2,3"] := by decide
  have hc : splitChar ',' "a,1,2,3" = ["a", "1", "2", "3"] := by decide
  have ht1 : trimChars "1" = "1" := by decide
  have ht2 : trimChars "2" = "2" := by decide
  have hta : trimChars "a" = "a" := by decide
  have hrec : parse_bus_stop_record "a,1,2,3"
      = some ⟨"a", ((1 : ℚ) : ℝ), ((2 : ℚ) : ℝ)⟩ := by
    simp [parse_bus_stop_record, hc, ht1, ht2, hta, parseF64_one, parseF64_two]
  simp [load_bus_stops, hs, hrec]

/-- C5 (amended): the loader is total and never fails; a record is kept
exactly when it has at least three comma-separated fields whose second
and third parse as numbers (fields beyond the third are ignored, records
with fewer than three fields or non-numeric coordinates are skipped); an
absent source, or one whose records are all invalid, yields the empty
list; and the documented example yields exactly the waypoints `Stop A`
and `Stop B`. -/
theorem loader_total_and_skips_invalid :
    load_bus_stops none = []
    ∧ (∀ r : String, (parse_bus_stop_record r).isSome ↔
        ∃ nm lat lng rest, splitChar ',' r = nm :: lat :: lng :: rest ∧
          (parseF64 (trimChars lat)).isSome ∧ (parseF64 (trimChars lng)).isSome)
    ∧ (∀ src : String, (∀ r ∈ splitChar ';' src, parse_bus_stop_record r = none) →
        load_bus_stops (some src) = [])
    ∧ load_bus_stops (some "Stop A,51.5,-0.1;BadRecord;Stop B,52.0,0.0")
        = [(⟨"Stop A", 51.5, -0.1⟩ : BusStop), ⟨"Stop B", 52, 0⟩] := by
  refine ⟨rfl, ?_, ?_, ?_⟩
  · intro r
    cases hsp : splitChar ',' r with
    | nil => simp [parse_bus_stop_record, hsp]
    | cons nm t =>
      cases t with
      | nil => simp [parse_bus_stop_record, hsp]
      | cons lat t2 =>
        cases t2 with
        | nil => simp [parse_bus_stop_record, hsp]
        | cons lng rest =>
          cases hla : parseF64 (trimChars lat) with
          | none => simp [parse_bus_stop_record, hsp, hla]
          | some la =>
            cases hlo : parseF64 (trimChars lng) with
            | none => simp [parse_bus_stop_record, hsp, hla, hlo]
            | some lo =>
              simp [parse_bus_stop_record, hsp, hla, hlo]
              exact ⟨nm, lat, lng, ⟨rfl, rfl, rfl⟩, by simp [hla], by simp [hlo]⟩
  · intro src h
    simp only [load_bus_stops, List.filterMap_eq_nil_iff]
    exact h
  · have hs : splitChar ';' "Stop A,51.5,-0.1;BadRecord;Stop B,52.0,0.0"
        = ["Stop A,51.5,-0.1", "BadRecord", "Stop B,52.0,0.0"] := by decide
    have r1 : parse_bus_stop_record "Stop A,51.5,-0.1"
        = some ⟨"Stop A", ((103 / 2 : ℚ) : ℝ), ((-1 / 10 : ℚ) : ℝ)⟩ := by
      have hc : splitChar ',' "Stop A,51.5,-0.1" = ["Stop A", "51.5", "-0.1"] := by decide
      have ht1 : trimChars "51.5" = "51.5" := by decide
      have ht2 : trimChars "-0.1" = "-0.1" := by decide
      have htn : trimChars "Stop A" = "Stop A" := by decide
      simp [parse_bus_stop_record, hc, ht1, ht2, htn, parseF64_515, parseF64_neg01]
    have r2 : parse_bus_stop_record "BadRecord" = none := by
      have hc : splitChar ',' "BadRecord" = ["BadRecord"] := by decide
      simp [parse_bus_stop_record, hc]
    have r3 : parse_bus_stop_record "Stop B,52.0,0.0"
        = some ⟨"Stop B", ((52 : ℚ) : ℝ), ((0 : ℚ) : ℝ)⟩ := by
      have hc : splitChar ',' "Stop B,52.0,0.0" = ["Stop B", "52.0", "0.0"] := by decide
      have ht1 : trimChars "52.0" = "52.0" := by decide
      have ht2 : trimChars "0.0" = "0.0" := by decide
      have htn : trimChars "Stop B" = "Stop B" := by decide
      simp [parse_bus_stop_record, hc, ht1, ht2, htn, parseF64_520, parseF64_00]
    simp [load_bus_stops, hs, r1, r2, r3]
    norm_num

lemma sampleService_lat : serviceCoord sampleService "latitude" = some 0 := by
  have h : jIndex sampleService "latitude" = Json.str "0" := rfl
  simp [serviceCoord, h, jAsStr, parseF64_zero]

lemma sampleService_lng : serviceCoord sampleService "longitude" = some 0 := by
  have h : jIndex sampleService "longitude" = Json.str "0" := rfl
  simp [serviceCoord, h, jAsStr, parseF64_zero]

lemma sampleService_number : jAsStr (jIndex sampleService "serviceNumber") = none := rfl

lemma sampleService_description :
    jAsStr (jIndex sampleService "serviceDescription") = none := rfl

lemma sampleServiceNum_lat : serviceCoord sampleServiceNum "latitude" = some 0 := by
  have h : jIndex sampleServiceNum "latitude" = Json.str "0" := rfl
  simp [serviceCoord, h, jAsStr, parseF64_zero]

lemma sampleServiceNum_lng : serviceCoord sampleServiceNum "longitude" = some 0 := by
  have h : jIndex sampleServiceNum "longitude" = Json.str "0" := rfl
  simp [serviceCoord, h, jAsStr, parseF64_zero]

lemma sampleServiceNum_number :
    jAsStr (jIndex sampleServiceNum "serviceNumber") = some "42" := rfl

lemma sampleServiceNum_description :
    jAsStr (jIndex sampleServiceNum "serviceDescription") = none := rfl

lemma sampleServiceDesc_lat : serviceCoord sampleServiceDesc "latitude" = some 0 := by
  have h : jIndex sampleServiceDesc "latitude" = Json.str "0" := rfl
  simp [serviceCoord, h, jAsStr, parseF64_zero]

lemma sampleServiceDesc_lng : serviceCoord sampleServiceDesc "longitude" = some 0 := by
  have h : jIndex sampleServiceDesc "longitude" = Json.str "0" := rfl
  simp [serviceCoord, h, jAsStr, parseF64_zero]

lemma sampleServiceDesc_number :
    jAsStr (jIndex sampleServiceDesc "serviceNumber") = none := rfl

lemma sampleServiceDesc_description :
    jAsStr (jIndex sampleServiceDesc "serviceDescription") = some "City Express" := rfl

lemma sampleStop_find :
    find_nearest_stop (0 : ℝ) (0 : ℝ) [sampleStop] = some "W" := by
  simp [find_nearest_stop, sampleStop, haversine_self_le_max]

lemma sampleStop_find_q :
    find_nearest_stop ((0 : ℚ) : ℝ) ((0 : ℚ) : ℝ) [sampleStop] = some "W" := by
  have hc : ((0 : ℚ) : ℝ) = (0 : ℝ) := by norm_num
  rw [hc]
  exact sampleStop_find

/-- C7: a response whose `services` field is absent or not an array, or
holds an empty array, is treated as no vehicles: the cycle attempts no
notification and completes successfully. -/
theorem no_services_no_notifications (bus_stops : List BusStop) (sendOk : ℕ → Bool)
    (response : Json) :
    (jAsArray (jIndex response "services") = none →
      check_buses bus_stops sendOk response = ([], true))
    ∧ (jIndex response "services" = Json.arr [] →
      check_buses bus_stops sendOk response = ([], true)) := by
  constructor
  · intro h
    simp [check_buses, h]
  · intro h
    simp [check_buses, h, jAsArray, process_services]

/-- Witness for `no_services_no_notifications`: a response with no
`services` key, and one with an empty `services` array. -/
theorem no_services_no_notifications_witness :
    check_buses [] (fun _ => true) (Json.obj []) = ([], true)
    ∧ check_buses [] (fun _ => true) (Json.obj [("services", Json.arr [])]) = ([], true) :=
  ⟨(no_services_no_notifications [] (fun _ => true) (Json.obj [])).1 rfl,
   (no_services_no_notifications [] (fun _ => true)
      (Json.obj [("services", Json.arr [])])).2 rfl⟩

/-- C8: a service entry whose `latitude` or `longitude` is not a string
parsing as a number is silently skipped, wherever it sits in the
`services` array: the cycle's attempted sends and outcome are as if the
entry were absent. -/
theorem bad_coords_entry_skipped (bus_stops : List BusStop) (sendOk : ℕ → Bool)
    (k : ℕ) (pre post : List Json) (e : Json)
    (h : serviceCoord e "latitude" = none ∨ serviceCoord e "longitude" = none) :
    process_services bus_stops sendOk k (pre ++ e :: post)
      = process_services bus_stops sendOk k (pre ++ post) := by
  induction pre generalizing k with
  | nil =>
    simp only [List.nil_append]
    rcases h with h | h
    · simp [process_services, h]
    · cases hla : serviceCoord e "latitude" with
      | none => simp [process_services, hla]
      | some la => simp [process_services, hla, h]
  | cons p pre ih =>
    simp only [List.cons_append]
    cases hla : serviceCoord p "latitude" with
    | none => simpa only [process_services, hla] using ih k
    | some la =>
      cases hlo : serviceCoord p "longitude" with
      | none => simpa only [process_services, hla, hlo] using ih k
      | some lo =>
        cases hf : find_nearest_stop (la : ℝ) (lo : ℝ) bus_stops with
        | none => simpa only [process_services, hla, hlo, hf] using ih k
        | some nm =>
          cases hsk : sendOk k with
          | false => simp [process_services, hla, hlo, hf, hsk]
          | true => simp [process_services, hla, hlo, hf, hsk, ih (k + 1)]

/-- Witness for `bad_coords_entry_skipped`: an entry whose latitude does
not parse produces no attempts and a successful cycle. -/
theorem bad_coords_entry_skipped_witness :
    process_services [] (fun _ => true) 0 [Json.obj [("latitude", Json.str "x")]]
      = ([], true) := by
  have hx : serviceCoord (Json.obj [("latitude", Json.str "x")]) "latitude" = none := rfl
  have h := bad_coords_entry_skipped [] (fun _ => true) 0 [] []
    (Json.obj [("latitude", Json.str "x")]) (Or.inl hx)
  simpa [process_services] using h

/-- C10: a matched entry always gets a notification attempt whose
message carries, independently for each field, the entry's string
`serviceNumber` or the fallback `"Unknown"` when it is absent or not a
string, and its string `serviceDescription` or the fallback
`"No description"` — the `unwrap_or` defaults of `check_buses`. -/
theorem missing_service_fields_default (bus_stops : List BusStop) (sendOk : ℕ → Bool)
    (k : ℕ) (rest : List Json) (e : Json) (la lo : ℚ) (nm : String)
    (hla : serviceCoord e "latitude" = some la)
    (hlo : serviceCoord e "longitude" = some lo)
    (hfind : find_nearest_stop (la : ℝ) (lo : ℝ) bus_stops = some nm) :
    (process_services bus_stops sendOk k (e :: rest)).1.head?
      = some (busMessage ((jAsStr (jIndex e "serviceNumber")).getD "Unknown")
          ((jAsStr (jIndex e "serviceDescription")).getD "No description") nm) := by
  cases hsk : sendOk k with
  | false => simp [process_services, hla, hlo, hfind, hsk]
  | true => simp [process_services, hla, hlo, hfind, hsk]

/-- Witness for `missing_service_fields_default`: at a waypoint, an
entry with neither service field, one with only a `serviceNumber`, and
one with only a `serviceDescription` are each notified, the missing
field (and only it) replaced by its default. -/
theorem missing_service_fields_default_witness :
    (process_services [sampleStop] (fun _ => true) 0 [sampleService]).1.head?
      = some (busMessage "Unknown" "No description" "W")
    ∧ (process_services [sampleStop] (fun _ => true) 0 [sampleServiceNum]).1.head?
      = some (busMessage "42" "No description" "W")
    ∧ (process_services [sampleStop] (fun _ => true) 0 [sampleServiceDesc]).1.head?
      = some (busMessage "Unknown" "City Express" "W") := by
  refine ⟨?_, ?_, ?_⟩
  · have h := missing_service_fields_default [sampleStop] (fun _ => true) 0 []
      sampleService 0 0 "W" sampleService_lat sampleService_lng sampleStop_find_q
    simpa [sampleService_number, sampleService_description] using h
  · have h := missing_service_fields_default [sampleStop] (fun _ => true) 0 []
      sampleServiceNum 0 0 "W" sampleServiceNum_lat sampleServiceNum_lng sampleStop_find_q
    simpa [sampleServiceNum_number, sampleServiceNum_description] using h
  · have h := missing_service_fields_default [sampleStop] (fun _ => true) 0 []
      sampleServiceDesc 0 0 "W" sampleServiceDesc_lat sampleServiceDesc_lng sampleStop_find_q
    simpa [sampleServiceDesc_number, sampleServiceDesc_description] using h

/-- C2 (counterexample to the claim as stated): two vehicles match in
the same cycle; when every send succeeds both are notified, but when the
first send fails the cycle aborts with an error after a single attempt —
the second matched vehicle of the same cycle is never processed. -/
theorem send_failure_cex :
    process_services [sampleStop] (fun _ => true) 0 [sampleService, sampleService]
      = ([busMessage "Unknown" "No description" "W",
          busMessage "Unknown" "No description" "W"], true)
    ∧ process_services [sampleStop] (fun _ => false) 0 [sampleService, sampleService]
      = ([busMessage "Unknown" "No description" "W"], false) := by
  constructor <;>
    simp [process_services, sampleService_lat, sampleService_lng, sampleStop_find,
      sampleService_number, sampleService_description]

/-- C2 (amended): when a notification send fails, the `?` operator
propagates the error out of `check_buses`: the loop stops and the
remaining vehicles of that cycle are not processed, so the cycle's
output is exactly that of the prefix up to and including the failed
send (later cycles are unaffected, the error being logged by the
caller). -/
theorem send_failure_aborts_cycle (bus_stops : List BusStop) (sendOk : ℕ → Bool)
    (k : ℕ) (l1 l2 : List Json)
    (h : (process_services bus_stops sendOk k l1).2 = false) :
    process_services bus_stops sendOk k (l1 ++ l2)
      = process_services bus_stops sendOk k l1 := by
  induction l1 generalizing k with
  | nil => simp [process_services] at h
  | cons e t ih =>
    simp only [List.cons_append]
    cases hla : serviceCoord e "latitude" with
    | none =>
      simp only [process_services, hla] at h ⊢
      exact ih k h
    | some la =>
      cases hlo : serviceCoord e "longitude" with
      | none =>
        simp only [process_services, hla, hlo] at h ⊢
        exact ih k h
      | some lo =>
        cases hf : find_nearest_stop (la : ℝ) (lo : ℝ) bus_stops with
        | none =>
          simp only [process_services, hla, hlo, hf] at h ⊢
          exact ih k h
        | some nm =>
          cases hsk : sendOk k with
          | false => simp [process_services, hla, hlo, hf, hsk]
          | true =>
            simp only [process_services, hla, hlo, hf, hsk, if_true] at h ⊢
            rw [ih (k + 1) h]

/-- Witness for `send_failure_aborts_cycle`: with the first send
failing, appending a second matched vehicle does not change the cycle's
output. -/
theorem send_failure_aborts_cycle_witness :
    process_services [sampleStop] (fun _ => false) 0 [sampleService, sampleService]
      = process_services [sampleStop] (fun _ => false) 0 [sampleService] := by
  have h : (process_services [sampleStop] (fun _ => false) 0 [sampleService]).2 = false := by
    simp [process_services, sampleService_lat, sampleService_lng, sampleStop_find,
      sampleService_number, sampleService_description]
  exact send_failure_aborts_cycle [sampleStop] (fun _ => false) 0
    [sampleService] [sampleService] h

/-- Witness for `find_nearest_stop_first_match`: with two waypoints both
at the vehicle's position, the first one in list order is returned. -/
theorem find_nearest_stop_first_match_witness :
    find_nearest_stop 0 0 [(⟨"First", 0, 0⟩ : BusStop), ⟨"Second", 0, 0⟩] = some "First" :=
  ((find_nearest_stop_first_match 0 0 [⟨"First", 0, 0⟩, ⟨"Second", 0, 0⟩]).2 "First").mpr
    ⟨[], ⟨"First", 0, 0⟩, [⟨"Second", 0, 0⟩], rfl, rfl,
      haversine_self_le_max 0 0, by simp⟩

/-- Witness for `loader_total_and_skips_invalid`: a source consisting of
one invalid record loads no waypoints. -/
theorem loader_total_and_skips_invalid_witness :
    load_bus_stops (some "x") = [] := by
  have hp : parse_bus_stop_record "x" = none := by
    have hc : splitChar ',' "x" = ["x"] := by decide
    simp [parse_bus_stop_record, hc]
  refine loader_total_and_skips_invalid.2.2.1 "x" ?_
  have hs : splitChar ';' "x" = ["x"] := by decide
  intro r hr
  rw [hs] at hr
  rw [List.mem_singleton.mp hr]
  exact hp

end Stagecoach
